import Mathlib

/-
Verification of the GObject/GTypeInstance proxy core (object.c of the lgi
binding): the weak/strong identity caches, the toggle-reference protocol,
ref-sink/unref resolution and the public conversion entry points
lgi_object_2lua / lgi_object_2c, together with object_query.

The embedding models:
  * the external GType system and introspection repository as a `TypeEnv`
    (type tags are naturals, 0 = G_TYPE_INVALID; the parent chain strictly
    decreases, which is the DAG-ness of the real type hierarchy);
  * the mutable Lua-side state (the two registry cache tables, the external
    reference counts, floating flags, toggle registration, emitted
    g_warning messages, and a fresh-userdata counter) as `LState`;
  * Lua values passed to the C entry points as `LuaArg` (nil, a proxy
    userdata carrying our metatable, or some other value with its Lua type
    name);
  * raising via luaL_argerror as `Except.error` carrying the formatted
    message built by object_type_error.
-/

namespace LgiObject

abbrev Ptr := Nat

abbrev GType := Nat

/-- Introspection info for a gtype (GIObjectInfo): whether
g_object_info_get_ref_function_pointer / get_unref_function_pointer are
non-NULL. -/
structure GIInfo where
  hasRef : Bool
  hasUnref : Bool
deriving DecidableEq

/-- The external type system and introspection repository, as consumed by
object.c: g_type_parent, G_TYPE_FUNDAMENTAL, G_TYPE_IS_OBJECT, the repo
tables reachable by lgi_type_get_repotype (with their _name field),
g_type_name, g_irepository_find_by_gtype, lgi_gi_load_function on a repo
table, and G_TYPE_FROM_INSTANCE for the live instances.  `parent_lt`
captures finiteness of ancestor chains (tag 0 is G_TYPE_INVALID). -/
structure TypeEnv where
  parent : GType → GType
  fundamental : GType → GType
  isObject : GType → Bool
  hasRepo : GType → Bool
  repoName : GType → String
  typeName : GType → String
  giInfo : GType → Option GIInfo
  hasTypetableFn : GType → String → Bool
  instType : Ptr → GType
  parent_lt : ∀ g, 0 < g → parent g < g

/-- The Lua-side proxy userdata: holds the native pointer; `id` is the
identity of the userdata allocation (two userdata are the same Lua value
iff their ids are equal). -/
structure ProxyRecord where
  native : Ptr
  id : Nat
deriving DecidableEq

/-- A Lua value as seen by the C entry points. -/
inductive LuaArg where
  | nil : LuaArg
  | proxy : ProxyRecord → LuaArg
  | other : String → LuaArg
deriving DecidableEq

/-- Mutable state: the weak and strong registry cache tables, the external
reference counts and floating flags, which objects carry our toggle
reference, the g_warning messages emitted so far, and the fresh-userdata
counter. -/
structure LState where
  weakCache : Ptr → Option ProxyRecord
  strongCache : Ptr → Option ProxyRecord
  refcount : Ptr → Nat
  floating : Ptr → Bool
  toggleRef : Ptr → Bool
  warnings : List String
  nextId : Nat

/-- Pointwise map update. -/
def update (f : Ptr → α) (k : Ptr) (v : α) : Ptr → α :=
  fun x => if x = k then v else f x

/-- One external reference added (a plain ref / custom ref function). -/
def incRef (s : LState) (p : Ptr) : LState :=
  { s with refcount := update s.refcount p (s.refcount p + 1) }

/-- One external reference removed (g_object_unref / custom unref). -/
def decRef (s : LState) (p : Ptr) : LState :=
  { s with refcount := update s.refcount p (s.refcount p - 1) }

/-- g_warning: record the diagnostic. -/
def warn (s : LState) (m : String) : LState :=
  { s with warnings := s.warnings ++ [m] }

/-- g_object_ref_sink: claim a floating reference, or add a reference. -/
def gObjectRefSink (s : LState) (p : Ptr) : LState :=
  if s.floating p then { s with floating := update s.floating p false }
  else incRef s p

/-- g_object_add_toggle_ref: adds a reference and registers the toggle
notification. -/
def addToggleRef (s : LState) (p : Ptr) : LState :=
  { s with refcount := update s.refcount p (s.refcount p + 1),
           toggleRef := update s.toggleRef p true }

/-- g_object_remove_toggle_ref: drops the toggle reference and its
registration. -/
def removeToggleRef (s : LState) (p : Ptr) : LState :=
  { s with refcount := update s.refcount p (s.refcount p - 1),
           toggleRef := update s.toggleRef p false }

/-- Fuel-driven unfolding of the object_type walk; the wrapper
`objectType` supplies enough fuel for any chain satisfying `parent_lt`
(see `objectType_eq`). -/
def objectTypeFuel (E : TypeEnv) : Nat → GType → GType
  | 0, _ => 0
  | fuel + 1, g =>
    if g = 0 then 0
    else if E.hasRepo g then g
    else objectTypeFuel E fuel (E.parent g)

/-- object_type: walks the parent chain from `g` until a gtype with a repo
table is found (that gtype is returned, its repo table is left on the
stack) or the chain is exhausted (G_TYPE_INVALID returned). -/
def objectType (E : TypeEnv) (g : GType) : GType :=
  objectTypeFuel E (g + 1) g

/-- Fuel-driven unfolding of g_type_is_a along the parent chain; the
wrapper `gTypeIsA` supplies enough fuel (see `gTypeIsA_eq`). -/
def gTypeIsAFuel (E : TypeEnv) : Nat → GType → GType → Bool
  | 0, _, _ => false
  | fuel + 1, a, b =>
    if a = 0 then false
    else if a = b then true
    else gTypeIsAFuel E fuel (E.parent a) b

/-- g_type_is_a: ancestor-chain compatibility check. -/
def gTypeIsA (E : TypeEnv) (a b : GType) : Bool :=
  gTypeIsAFuel E (a + 1) a b

/-- object_load_function: resolve the repo table by the object_type walk,
then look the named function up on it (NULL when no repo table exists or
the table has no such function). -/
def objectLoadFunction (E : TypeEnv) (g : GType) (name : String) : Bool :=
  if objectType E g ≠ 0 then E.hasTypetableFn (objectType E g) name
  else false

/-- The g_irepository_find_by_gtype lookup pattern shared by
object_refsink and object_unref: try the gtype itself, then its
fundamental type. -/
def giLookup (E : TypeEnv) (g : GType) : Option GIInfo :=
  match E.giInfo g with
  | some i => some i
  | none => E.giInfo (E.fundamental g)

/-- Whether the introspection repo supplies a ref function pointer for
this gtype (info found and its ref pointer non-NULL). -/
def giRefAvailable (E : TypeEnv) (g : GType) : Bool :=
  match giLookup E g with
  | some i => i.hasRef
  | none => false

/-- Whether the introspection repo supplies an unref function pointer for
this gtype (info found and its unref pointer non-NULL). -/
def giUnrefAvailable (E : TypeEnv) (g : GType) : Bool :=
  match giLookup E g with
  | some i => i.hasUnref
  | none => false

/-- object_refsink: add one reference to the object, returning TRUE on
success.  Tries g_object_ref_sink for G_TYPE_IS_OBJECT types, then the
introspection-provided ref function pointer, then the custom _refsink
typetable function; warns and returns FALSE if none applies. -/
def objectRefsink (E : TypeEnv) (s : LState) (obj : Ptr) : Bool × LState :=
  if E.isObject (E.instType obj) then (true, gObjectRefSink s obj)
  else if giRefAvailable E (E.instType obj) then (true, incRef s obj)
  else if objectLoadFunction E (E.instType obj) "_refsink" then
    (true, incRef s obj)
  else
    (false, warn s ("no way to ref type " ++ E.typeName (E.instType obj)))

/-- object_unref: remove one reference.  For G_TYPE_IS_OBJECT types either
remove the toggle reference (remove_proxy) or g_object_unref; otherwise
try the introspection-provided unref function pointer, then the custom
_unref typetable function; warn (and leak) if none applies. -/
def objectUnref (E : TypeEnv) (s : LState) (obj : Ptr) (removeProxy : Bool) :
    LState :=
  if E.isObject (E.instType obj) then
    if removeProxy then removeToggleRef s obj else decRef s obj
  else if giUnrefAvailable E (E.instType obj) then decRef s obj
  else if objectLoadFunction E (E.instType obj) "_unref" then decRef s obj
  else
    warn s ("no way to unref type " ++ E.typeName (E.instType obj))

/-- object_toggle_notify: on is_last_ref store nil into the strong cache
slot for the object, otherwise store the weak cache's record for it. -/
def objectToggleNotify (s : LState) (obj : Ptr) (isLastRef : Bool) :
    LState :=
  if isLastRef then
    { s with strongCache := update s.strongCache obj none }
  else
    { s with strongCache := update s.strongCache obj (s.weakCache obj) }

/-- The cache-miss block of lgi_object_2lua that creates the new userdata
(with metatable and fresh empty environment table) and rawsets it into the
weak cache. -/
def insertWeak (s : LState) (obj : Ptr) : LState :=
  { s with nextId := s.nextId + 1,
           weakCache := update s.weakCache obj (some ⟨obj, s.nextId⟩) }

/-- The tail of lgi_object_2lua's cache-miss path, entered with the new
proxy already stored in the weak cache (state `s1`): refsink when not
owned, and for G_TYPE_IS_OBJECT types add the toggle reference, seed the
strong cache via object_toggle_notify, and drop the redundant pre-owned
reference. -/
def lgi_object_2lua_miss (E : TypeEnv) (s1 : LState) (obj : Ptr)
    (own : Bool) : LState :=
  let os := if own then (true, s1) else objectRefsink E s1 obj
  if E.isObject (E.instType obj) then
    let s4 := objectToggleNotify (addToggleRef os.2 obj) obj false
    if os.1 then decRef s4 obj else s4
  else os.2

/-- lgi_object_2lua: NULL becomes nil; a cached pointer returns the cached
proxy (releasing one reference when `own`); otherwise a fresh proxy is
created, weak-cached, and ownership/toggle machinery run. -/
def lgi_object_2lua (E : TypeEnv) (s : LState) (obj : Ptr) (own : Bool) :
    LuaArg × LState :=
  if obj = 0 then (LuaArg.nil, s)
  else
    match s.weakCache obj with
    | some r =>
      (LuaArg.proxy r, if own then objectUnref E s obj false else s)
    | none =>
      (LuaArg.proxy ⟨obj, s.nextId⟩,
       lgi_object_2lua_miss E (insertWeak s obj) obj own)

/-- object_check: the pointer held by the argument when it is a userdata
carrying our object metatable, NULL otherwise. -/
def object_check : LuaArg → Option Ptr
  | LuaArg.proxy r => some r.native
  | _ => none

/-- lua_typename of the argument's Lua type. -/
def luaTypeName : LuaArg → String
  | LuaArg.nil => "nil"
  | LuaArg.proxy _ => "userdata"
  | LuaArg.other t => t

/-- lua_isnoneornil. -/
def isNoneOrNil : LuaArg → Bool
  | LuaArg.nil => true
  | _ => false

/-- The expected-type part of object_type_error's message: the _name of
the repo table found by walking up from the requested gtype (with the raw
requested name appended in parentheses when the walk generalized), the raw
g_type_name when no repo table exists, and the literal lgi.object for
G_TYPE_INVALID. -/
def expectedTypeName (E : TypeEnv) (g : GType) : String :=
  if objectType E g ≠ 0 then
    if g = objectType E g then E.repoName (objectType E g)
    else E.repoName (objectType E g) ++ "(" ++ E.typeName g ++ ")"
  else if g = 0 then "lgi.object"
  else E.typeName g

/-- object_type_error's message: expected-part, then the Lua typename of
the offending argument. -/
def objectTypeErrorMsg (E : TypeEnv) (arg : LuaArg) (g : GType) : String :=
  expectedTypeName E g ++ " expected, got " ++ luaTypeName arg

/-- lgi_object_2c: nil with `optional` yields NULL; then object_check and,
unless `nothrow`, the g_type_is_a check against the requested gtype, with
object_type_error raised on failure; with `nothrow` the unchecked pointer
(or NULL for a non-proxy) is returned. -/
def lgi_object_2c (E : TypeEnv) (arg : LuaArg) (gtype : GType)
    (optional nothrow : Bool) : Except String (Option Ptr) :=
  if optional && isNoneOrNil arg then Except.ok none
  else
    match object_check arg with
    | none =>
      if nothrow then Except.ok none
      else Except.error (objectTypeErrorMsg E arg gtype)
    | some p =>
      if !nothrow && (gtype != 0) && !(gTypeIsA E (E.instType p) gtype) then
        Except.error (objectTypeErrorMsg E arg gtype)
      else Except.ok (some p)

/-- Modes of object.query (luaL_checkoption over gtype, repo, class,
env). -/
inductive QueryMode where
  | gtype : QueryMode
  | repo : QueryMode
  | cls : QueryMode
  | env : QueryMode
deriving DecidableEq

/-- Values object_query can push. -/
inductive QueryResult where
  | gtypeOf : GType → QueryResult
  | repoTable : GType → QueryResult
  | classStruct : GType → QueryResult
  | envTable : ProxyRecord → QueryResult
deriving DecidableEq

/-- object_query: returns 0 results (none) when the first argument is not
a proxy; otherwise dispatches on mode, with repo/class yielding 0 results
when the object_type walk finds no repo table. -/
def object_query (E : TypeEnv) (arg : LuaArg) (mode : QueryMode)
    (argGType : GType) : Option QueryResult :=
  match arg with
  | LuaArg.proxy r =>
    let g := if argGType = 0 then E.instType r.native else argGType
    match mode with
    | QueryMode.gtype => some (QueryResult.gtypeOf g)
    | QueryMode.env => some (QueryResult.envTable r)
    | QueryMode.repo =>
      if objectType E g ≠ 0 then some (QueryResult.repoTable (objectType E g))
      else none
    | QueryMode.cls =>
      if objectType E g ≠ 0 then some (QueryResult.classStruct g)
      else none
  | _ => none

/-- A sequence of lgi_object_2lua calls on the same pointer with the given
ownership flags; collects the returned Lua values. -/
def callSeq (E : TypeEnv) (obj : Ptr) : List Bool → LState → List LuaArg × LState
  | [], s => ([], s)
  | b :: bs, s =>
    let rs := lgi_object_2lua E s obj b
    let rest := callSeq E obj bs rs.2
    (rs.1 :: rest.1, rest.2)

/-- The proxy a lgi_object_2lua call on `obj` returns from state `s`: the
weak-cached record on a hit, the freshly allocated one on a miss. -/
def cachedOrNew (s : LState) (obj : Ptr) : ProxyRecord :=
  match s.weakCache obj with
  | some r => r
  | none => ⟨obj, s.nextId⟩

/-- The central cache invariant: every strong-cache entry is exactly the
weak-cache entry for the same key. -/
def cacheInv (s : LState) : Prop :=
  ∀ p r, s.strongCache p = some r → s.weakCache p = some r

/-- Scans a character list for an occurrence of the pattern. -/
def containsSubAux (pat : List Char) : List Char → Bool
  | [] => pat.isEmpty
  | a :: as => List.isPrefixOf pat (a :: as) || containsSubAux pat as

/-- Substring test used to state what a diagnostic message mentions. -/
def strContains (s pat : String) : Bool :=
  containsSubAux pat.data s.data

/-- Concrete type environment used by the witnesses and the
counterexample: gtype 2 (name Foo) has a repo table, gtype 3 (name Bar)
has none and is unrelated to 2, gtype 6 is a GObject class; instance 7 has
gtype 3 and instance 5 has gtype 6; the introspection repo is empty and no
typetable functions exist. -/
def EW : TypeEnv where
  parent := fun g => g / 2
  fundamental := fun g => g
  isObject := fun g => g == 6
  hasRepo := fun g => g == 2
  repoName := fun g => if g == 2 then "Foo" else ""
  typeName := fun g => if g == 2 then "Foo" else if g == 3 then "Bar" else "Other"
  giInfo := fun _ => none
  hasTypetableFn := fun _ _ => false
  instType := fun p => if p == 5 then 6 else if p == 7 then 3 else 1
  parent_lt := fun _ hg => Nat.div_lt_self hg (by decide)

/-- Concrete empty-cache state for witnesses: every refcount 1, nothing
cached, nothing floating or toggle-registered. -/
def s0 : LState where
  weakCache := fun _ => none
  strongCache := fun _ => none
  refcount := fun _ => 1
  floating := fun _ => false
  toggleRef := fun _ => false
  warnings := []
  nextId := 0

/-- Concrete state with pointer 7 weak-cached (weak-only): used by the
toggle round-trip witness. -/
def sW : LState :=
  { s0 with weakCache := fun p => if p = 7 then some ⟨7, 0⟩ else none }

deriving instance DecidableEq for Except

theorem update_self (f : Ptr → α) (k : Ptr) (v : α) : update f k v k = v := by
  simp [update]

theorem update_other (f : Ptr → α) (k : Ptr) (v : α) (x : Ptr) (h : x ≠ k) :
    update f k v x = f x := by
  simp [update, h]

theorem objectTypeFuel_stable (E : TypeEnv) :
    ∀ g f₁ f₂, g < f₁ → g < f₂ →
      objectTypeFuel E f₁ g = objectTypeFuel E f₂ g := by
  intro g
  induction g using Nat.strong_induction_on with
  | _ g ih =>
    intro f₁ f₂ h₁ h₂
    cases f₁ with
    | zero => omega
    | succ a =>
    cases f₂ with
    | zero => omega
    | succ b =>
    simp only [objectTypeFuel]
    by_cases hg : g = 0
    · simp [hg]
    · simp only [hg, if_false]
      by_cases hr : E.hasRepo g
      · simp [hr]
      · simp only [hr, if_false]
        have hp : E.parent g < g := E.parent_lt g (Nat.pos_of_ne_zero hg)
        have haa : E.parent g < a :=
          Nat.lt_of_lt_of_le hp (Nat.lt_succ_iff.mp h₁)
        have hbb : E.parent g < b :=
          Nat.lt_of_lt_of_le hp (Nat.lt_succ_iff.mp h₂)
        exact ih (E.parent g) hp a b haa hbb

/-- The object_type walk satisfies the loop equation of the C source:
stop at G_TYPE_INVALID, stop when a repo table exists, otherwise continue
at the parent type. -/
theorem objectType_eq (E : TypeEnv) (g : GType) :
    objectType E g
      = if g = 0 then 0
        else if E.hasRepo g then g
        else objectType E (E.parent g) := by
  unfold objectType
  rw [show objectTypeFuel E (g + 1) g
        = if g = 0 then 0
          else if E.hasRepo g then g
          else objectTypeFuel E g (E.parent g) from rfl]
  by_cases hg : g = 0
  · simp [hg]
  · simp only [hg, if_false]
    by_cases hr : E.hasRepo g
    · simp [hr]
    · simp only [hr, if_false]
      exact objectTypeFuel_stable E (E.parent g) g (E.parent g + 1)
        (E.parent_lt g (Nat.pos_of_ne_zero hg)) (Nat.lt_succ_self _)

theorem gTypeIsAFuel_stable (E : TypeEnv) :
    ∀ a f₁ f₂ b, a < f₁ → a < f₂ →
      gTypeIsAFuel E f₁ a b = gTypeIsAFuel E f₂ a b := by
  intro a
  induction a using Nat.strong_induction_on with
  | _ a ih =>
    intro f₁ f₂ b h₁ h₂
    cases f₁ with
    | zero => omega
    | succ c =>
    cases f₂ with
    | zero => omega
    | succ d =>
    simp only [gTypeIsAFuel]
    by_cases ha : a = 0
    · simp [ha]
    · simp only [ha, if_false]
      by_cases hab : a = b
      · simp [hab]
      · simp only [hab, if_false]
        have hp : E.parent a < a := E.parent_lt a (Nat.pos_of_ne_zero ha)
        have hcc : E.parent a < c :=
          Nat.lt_of_lt_of_le hp (Nat.lt_succ_iff.mp h₁)
        have hdd : E.parent a < d :=
          Nat.lt_of_lt_of_le hp (Nat.lt_succ_iff.mp h₂)
        exact ih (E.parent a) hp c d b hcc hdd

/-- g_type_is_a as embedded satisfies the ancestor-chain equation. -/
theorem gTypeIsA_eq (E : TypeEnv) (a b : GType) :
    gTypeIsA E a b
      = if a = 0 then false
        else if a = b then true
        else gTypeIsA E (E.parent a) b := by
  unfold gTypeIsA
  rw [show gTypeIsAFuel E (a + 1) a b
        = if a = 0 then false
          else if a = b then true
          else gTypeIsAFuel E a (E.parent a) b from rfl]
  by_cases ha : a = 0
  · simp [ha]
  · simp only [ha, if_false]
    by_cases hab : a = b
    · simp [hab]
    · simp only [hab, if_false]
      exact gTypeIsAFuel_stable E (E.parent a) a (E.parent a + 1) b
        (E.parent_lt a (Nat.pos_of_ne_zero ha)) (Nat.lt_succ_self _)

theorem objectRefsink_weakCache (E : TypeEnv) (s : LState) (obj : Ptr) :
    (objectRefsink E s obj).2.weakCache = s.weakCache := by
  unfold objectRefsink gObjectRefSink incRef warn
  repeat' split
  all_goals rfl

theorem objectRefsink_strongCache (E : TypeEnv) (s : LState) (obj : Ptr) :
    (objectRefsink E s obj).2.strongCache = s.strongCache := by
  unfold objectRefsink gObjectRefSink incRef warn
  repeat' split
  all_goals rfl

theorem objectRefsink_nextId (E : TypeEnv) (s : LState) (obj : Ptr) :
    (objectRefsink E s obj).2.nextId = s.nextId := by
  unfold objectRefsink gObjectRefSink incRef warn
  repeat' split
  all_goals rfl

theorem objectUnref_weakCache (E : TypeEnv) (s : LState) (obj : Ptr)
    (rp : Bool) : (objectUnref E s obj rp).weakCache = s.weakCache := by
  unfold objectUnref removeToggleRef decRef warn
  repeat' split
  all_goals rfl

theorem objectUnref_strongCache (E : TypeEnv) (s : LState) (obj : Ptr)
    (rp : Bool) : (objectUnref E s obj rp).strongCache = s.strongCache := by
  unfold objectUnref removeToggleRef decRef warn
  repeat' split
  all_goals rfl

theorem objectUnref_nextId (E : TypeEnv) (s : LState) (obj : Ptr)
    (rp : Bool) : (objectUnref E s obj rp).nextId = s.nextId := by
  unfold objectUnref removeToggleRef decRef warn
  repeat' split
  all_goals rfl

theorem toggleNotify_weakCache (s : LState) (obj : Ptr) (b : Bool) :
    (objectToggleNotify s obj b).weakCache = s.weakCache := by
  unfold objectToggleNotify
  split <;> rfl

theorem toggleNotify_refcount (s : LState) (obj : Ptr) (b : Bool) :
    (objectToggleNotify s obj b).refcount = s.refcount := by
  unfold objectToggleNotify
  split <;> rfl

theorem miss_weakCache (E : TypeEnv) (s1 : LState) (obj : Ptr) (own : Bool) :
    (lgi_object_2lua_miss E s1 obj own).weakCache = s1.weakCache := by
  simp only [lgi_object_2lua_miss]
  cases own <;>
    · repeat' split
      all_goals
        simp [toggleNotify_weakCache, addToggleRef, decRef,
          objectRefsink_weakCache]

theorem two_lua_nil (E : TypeEnv) (s : LState) (own : Bool) :
    lgi_object_2lua E s 0 own = (LuaArg.nil, s) := by
  simp [lgi_object_2lua]

theorem two_lua_hit (E : TypeEnv) (s : LState) (obj : Ptr) (own : Bool)
    (r : ProxyRecord) (h0 : obj ≠ 0) (h : s.weakCache obj = some r) :
    lgi_object_2lua E s obj own
      = (LuaArg.proxy r, if own then objectUnref E s obj false else s) := by
  unfold lgi_object_2lua
  rw [if_neg h0, h]

theorem two_lua_miss (E : TypeEnv) (s : LState) (obj : Ptr) (own : Bool)
    (h0 : obj ≠ 0) (h : s.weakCache obj = none) :
    lgi_object_2lua E s obj own
      = (LuaArg.proxy ⟨obj, s.nextId⟩,
         lgi_object_2lua_miss E (insertWeak s obj) obj own) := by
  unfold lgi_object_2lua
  rw [if_neg h0, h]

/-- C2: object_toggle_notify with is_last_ref true removes the handle's
strong-cache entry and leaves the weak cache intact (demote); with
is_last_ref false it copies the weak-cache record for the handle into the
strong cache (promote); hence a refcount transition sequence 1 → 2 → 1,
i.e. on_toggle false followed by on_toggle true from a weak-only state,
produces cache states weak-only → strong-present → weak-only. -/
theorem toggle_demote_promote_round_trip (s : LState) (obj : Ptr)
    (r : ProxyRecord) (hw : s.weakCache obj = some r)
    (hs : s.strongCache obj = none) :
    ((objectToggleNotify s obj true).strongCache obj = none
       ∧ (objectToggleNotify s obj true).weakCache = s.weakCache)
  ∧ ((objectToggleNotify s obj false).strongCache obj = s.weakCache obj
       ∧ (objectToggleNotify s obj false).weakCache = s.weakCache)
  ∧ (s.strongCache obj = none
       ∧ (objectToggleNotify s obj false).strongCache obj = some r
       ∧ (objectToggleNotify (objectToggleNotify s obj false) obj
            true).strongCache obj = none
       ∧ (objectToggleNotify (objectToggleNotify s obj false) obj
            true).weakCache obj = some r) := by
  refine ⟨⟨?_, ?_⟩, ⟨?_, ?_⟩, hs, ?_, ?_, ?_⟩
  · simp [objectToggleNotify, update_self]
  · exact toggleNotify_weakCache s obj true
  · simp [objectToggleNotify, update_self]
  · exact toggleNotify_weakCache s obj false
  · simp [objectToggleNotify, update_self, hw]
  · simp [objectToggleNotify, update_self]
  · simp [objectToggleNotify, hw]

theorem toggle_demote_promote_round_trip_witness :
    (objectToggleNotify sW 7 false).strongCache 7 = some ⟨7, 0⟩
  ∧ (objectToggleNotify (objectToggleNotify sW 7 false) 7
       true).strongCache 7 = none :=
  ⟨(toggle_demote_promote_round_trip sW 7 ⟨7, 0⟩ (by decide)
      (by rfl)).2.2.2.1,
   (toggle_demote_promote_round_trip sW 7 ⟨7, 0⟩ (by decide)
      (by rfl)).2.2.2.2.1⟩

/-- C4 counterexample: instance 7 has gtype Bar, checked against expected
gtype 2 (Foo, incompatible).  The raised message is Foo expected, got
userdata: it does not contain the actual type name Bar; and with nothrow
the call returns the non-NULL pointer itself, not an absent value. -/
theorem type_mismatch_counterexample :
    lgi_object_2c EW (LuaArg.proxy ⟨7, 0⟩) 2 false false
      = Except.error "Foo expected, got userdata"
  ∧ EW.typeName (EW.instType 7) = "Bar"
  ∧ strContains "Foo expected, got userdata" "Bar" = false
  ∧ gTypeIsA EW (EW.instType 7) 2 = false
  ∧ lgi_object_2c EW (LuaArg.proxy ⟨7, 0⟩) 2 false true
      = Except.ok (some 7) := by
  decide

/-- C4 (amended): when a proxy's concrete type is not g_type_is_a
compatible with the expected non-invalid gtype and no_throw is false,
lgi_object_2c raises a diagnostic whose message is the expected-type name
followed by the Lua typename of the argument (userdata for any proxy, not
the object's own type name); when no_throw is true the type check is
skipped entirely and the non-NULL native pointer is returned with no
diagnostic. -/
theorem type_mismatch_reporting (E : TypeEnv) (r : ProxyRecord) (g : GType)
    (opt : Bool) (hg : g ≠ 0)
    (hmis : gTypeIsA E (E.instType r.native) g = false) :
    lgi_object_2c E (LuaArg.proxy r) g opt false
      = Except.error (expectedTypeName E g ++ " expected, got "
          ++ luaTypeName (LuaArg.proxy r))
  ∧ luaTypeName (LuaArg.proxy r) = "userdata"
  ∧ lgi_object_2c E (LuaArg.proxy r) g opt true
      = Except.ok (some r.native) := by
  refine ⟨?_, rfl, ?_⟩
  · simp [lgi_object_2c, isNoneOrNil, object_check, hmis, hg,
      objectTypeErrorMsg]
  · simp [lgi_object_2c, isNoneOrNil, object_check]

theorem type_mismatch_reporting_witness :
    lgi_object_2c EW (LuaArg.proxy ⟨7, 1⟩) 2 true false
      = Except.error (expectedTypeName EW 2 ++ " expected, got "
          ++ luaTypeName (LuaArg.proxy ⟨7, 1⟩))
  ∧ luaTypeName (LuaArg.proxy ⟨7, 1⟩) = "userdata"
  ∧ lgi_object_2c EW (LuaArg.proxy ⟨7, 1⟩) 2 true true
      = Except.ok (some 7) :=
  type_mismatch_reporting EW ⟨7, 1⟩ 2 true (by decide) (by decide)

/-- C5: lgi_object_2lua on a NULL pointer yields nil with the state
untouched; lgi_object_2c on an absent input yields NULL when optional and
raises when not optional (and not nothrow). -/
theorem null_propagation (E : TypeEnv) (s : LState) (g : GType)
    (b nt : Bool) :
    lgi_object_2lua E s 0 b = (LuaArg.nil, s)
  ∧ lgi_object_2c E LuaArg.nil g true nt = Except.ok none
  ∧ lgi_object_2c E LuaArg.nil g false false
      = Except.error (objectTypeErrorMsg E LuaArg.nil g) := by
  refine ⟨two_lua_nil E s b, ?_, ?_⟩
  · simp [lgi_object_2c, isNoneOrNil]
  · simp [lgi_object_2c, isNoneOrNil, object_check]

/-- C7: object_refsink tries, in priority order and stopping at the first
success, g_object_ref_sink for instances of GObject kind, the
introspection-provided ref function pointer, and the custom _refsink
typetable hook; it returns true as soon as one applies and returns false
after emitting a warning when none does. -/
theorem refsink_priority (E : TypeEnv) (s : LState) (obj : Ptr) :
    (E.isObject (E.instType obj) = true →
       objectRefsink E s obj = (true, gObjectRefSink s obj))
  ∧ (E.isObject (E.instType obj) = false →
     giRefAvailable E (E.instType obj) = true →
       objectRefsink E s obj = (true, incRef s obj))
  ∧ (E.isObject (E.instType obj) = false →
     giRefAvailable E (E.instType obj) = false →
     objectLoadFunction E (E.instType obj) "_refsink" = true →
       objectRefsink E s obj = (true, incRef s obj))
  ∧ (E.isObject (E.instType obj) = false →
     giRefAvailable E (E.instType obj) = false →
     objectLoadFunction E (E.instType obj) "_refsink" = false →
       objectRefsink E s obj
         = (false,
            warn s ("no way to ref type " ++ E.typeName (E.instType obj)))) := by
  refine ⟨fun h1 => ?_, fun h1 h2 => ?_, fun h1 h2 h3 => ?_,
    fun h1 h2 h3 => ?_⟩
  · simp [objectRefsink, h1]
  · simp [objectRefsink, h1, h2]
  · simp [objectRefsink, h1, h2, h3]
  · simp [objectRefsink, h1, h2, h3]

theorem refsink_priority_witness :
    objectRefsink EW s0 7
      = (false,
         warn s0 ("no way to ref type " ++ EW.typeName (EW.instType 7))) :=
  (refsink_priority EW s0 7).2.2.2 (by decide) (by decide) (by decide)

/-- C8: object_unref for a non-GObject fundamental type resolves an unref
mechanism trying the introspection-provided unref function pointer first
and then the _unref typetable hook; when neither exists it emits a warning
and performs no release, leaving both caches and the refcount map
untouched. -/
theorem unref_fundamental (E : TypeEnv) (s : LState) (obj : Ptr) (rp : Bool)
    (h : E.isObject (E.instType obj) = false) :
    (giUnrefAvailable E (E.instType obj) = true →
       objectUnref E s obj rp = decRef s obj)
  ∧ (giUnrefAvailable E (E.instType obj) = false →
     objectLoadFunction E (E.instType obj) "_unref" = true →
       objectUnref E s obj rp = decRef s obj)
  ∧ (giUnrefAvailable E (E.instType obj) = false →
     objectLoadFunction E (E.instType obj) "_unref" = false →
       objectUnref E s obj rp
         = warn s ("no way to unref type " ++ E.typeName (E.instType obj))
       ∧ (objectUnref E s obj rp).weakCache = s.weakCache
       ∧ (objectUnref E s obj rp).strongCache = s.strongCache
       ∧ (objectUnref E s obj rp).refcount = s.refcount) := by
  refine ⟨fun h1 => ?_, fun h1 h2 => ?_, fun h1 h2 => ?_⟩
  · simp [objectUnref, h, h1]
  · simp [objectUnref, h, h1, h2]
  · have he : objectUnref E s obj rp
        = warn s ("no way to unref type " ++ E.typeName (E.instType obj)) := by
      simp [objectUnref, h, h1, h2]
    exact ⟨he, by rw [he]; rfl, by rw [he]; rfl, by rw [he]; rfl⟩

theorem unref_fundamental_witness :
    objectUnref EW s0 7 false
      = warn s0 ("no way to unref type " ++ EW.typeName (EW.instType 7))
  ∧ (objectUnref EW s0 7 false).weakCache = s0.weakCache
  ∧ (objectUnref EW s0 7 false).strongCache = s0.strongCache
  ∧ (objectUnref EW s0 7 false).refcount = s0.refcount :=
  (unref_fundamental EW s0 7 false (by decide)).2.2 (by decide) (by decide)

/-- C10: object_query yields zero results, rather than raising, when its
first argument is not a recognized proxy, and likewise for modes repo and
class when the ancestor walk finds no registered repo table for the
effective gtype. -/
theorem query_no_raise (E : TypeEnv) (arg : LuaArg) (mode : QueryMode)
    (argG : GType) :
    (object_check arg = none → object_query E arg mode argG = none)
  ∧ (∀ r, arg = LuaArg.proxy r →
      (mode = QueryMode.repo ∨ mode = QueryMode.cls) →
      objectType E (if argG = 0 then E.instType r.native else argG) = 0 →
      object_query E arg mode argG = none) := by
  constructor
  · intro h
    cases arg with
    | proxy r => simp [object_check] at h
    | nil => rfl
    | other t => rfl
  · rintro r rfl hm h0
    cases hm with
    | inl hm => subst hm; simp [object_query, h0]
    | inr hm => subst hm; simp [object_query, h0]

theorem query_no_raise_witness :
    object_query EW (LuaArg.other "boolean") QueryMode.cls 0 = none
  ∧ object_query EW (LuaArg.proxy ⟨7, 0⟩) QueryMode.repo 0 = none :=
  ⟨(query_no_raise EW (LuaArg.other "boolean") QueryMode.cls 0).1 rfl,
   (query_no_raise EW (LuaArg.proxy ⟨7, 0⟩) QueryMode.repo 0).2 ⟨7, 0⟩ rfl
     (Or.inl rfl) (by decide)⟩

theorem objectUnref_object_plain (E : TypeEnv) (s : LState) (obj : Ptr)
    (hobj : E.isObject (E.instType obj) = true) :
    objectUnref E s obj false = decRef s obj := by
  simp [objectUnref, hobj]

theorem miss_own_object_state (E : TypeEnv) (s1 : LState) (obj : Ptr)
    (hobj : E.isObject (E.instType obj) = true) :
    lgi_object_2lua_miss E s1 obj true
      = decRef (objectToggleNotify (addToggleRef s1 obj) obj false) obj := by
  simp [lgi_object_2lua_miss, hobj]

theorem callSeq_hit (E : TypeEnv) (obj : Ptr) (h0 : obj ≠ 0) :
    ∀ (flags : List Bool) (s : LState) (r : ProxyRecord),
      s.weakCache obj = some r →
      (callSeq E obj flags s).1
          = List.replicate flags.length (LuaArg.proxy r)
        ∧ (callSeq E obj flags s).2.weakCache obj = some r := by
  intro flags
  induction flags with
  | nil => intro s r h; exact ⟨rfl, h⟩
  | cons b bs ih =>
    intro s r h
    have e := two_lua_hit E s obj b r h0 h
    have hw : (lgi_object_2lua E s obj b).2.weakCache obj = some r := by
      rw [e]
      cases b
      · simpa using h
      · show (objectUnref E s obj false).weakCache obj = some r
        rw [objectUnref_weakCache]
        exact h
    have e1 : (lgi_object_2lua E s obj b).1 = LuaArg.proxy r := by rw [e]
    obtain ⟨ih1, ih2⟩ := ih (lgi_object_2lua E s obj b).2 r hw
    constructor
    · show (lgi_object_2lua E s obj b).1
          :: (callSeq E obj bs (lgi_object_2lua E s obj b).2).1
          = List.replicate (b :: bs).length (LuaArg.proxy r)
      rw [List.length_cons, List.replicate_succ, ih1, e1]
    · exact ih2

theorem insertWeak_cacheInv (s : LState) (obj : Ptr) (h : cacheInv s)
    (hm : s.weakCache obj = none) : cacheInv (insertWeak s obj) := by
  intro p r hpr
  have hps : s.strongCache p = some r := hpr
  have hw := h p r hps
  show update s.weakCache obj (some ⟨obj, s.nextId⟩) p = some r
  by_cases hp : p = obj
  · subst hp
    rw [hw] at hm
    exact absurd hm (by simp)
  · rw [update_other _ _ _ _ hp]
    exact hw

theorem miss_strongCache (E : TypeEnv) (s1 : LState) (obj : Ptr)
    (own : Bool) :
    (lgi_object_2lua_miss E s1 obj own).strongCache = s1.strongCache
    ∨ (lgi_object_2lua_miss E s1 obj own).strongCache
        = update s1.strongCache obj (s1.weakCache obj) := by
  simp only [lgi_object_2lua_miss]
  cases own
  · by_cases hobj : E.isObject (E.instType obj) = true
    · right
      by_cases hos : (objectRefsink E s1 obj).1 = true
      · simp [hobj, hos, objectToggleNotify, addToggleRef, decRef,
          objectRefsink_strongCache, objectRefsink_weakCache]
      · simp [hobj, hos, objectToggleNotify, addToggleRef,
          objectRefsink_strongCache, objectRefsink_weakCache]
    · left
      simp [hobj, objectRefsink_strongCache]
  · by_cases hobj : E.isObject (E.instType obj) = true
    · right
      simp [hobj, objectToggleNotify, addToggleRef, decRef]
    · left
      simp [hobj]

theorem miss_cacheInv (E : TypeEnv) (s1 : LState) (obj : Ptr) (own : Bool)
    (h1 : cacheInv s1) : cacheInv (lgi_object_2lua_miss E s1 obj own) := by
  intro p r hpr
  rw [miss_weakCache]
  rcases miss_strongCache E s1 obj own with hs | hs
  · rw [hs] at hpr
    exact h1 p r hpr
  · rw [hs] at hpr
    by_cases hp : p = obj
    · subst hp
      rw [update_self] at hpr
      exact hpr
    · rw [update_other _ _ _ _ hp] at hpr
      exact h1 p r hpr

/-- C1: every sequence of lgi_object_2lua calls on the same non-null
pointer with no intervening finalization returns the identical proxy
record: the first call either serves the weak-cached record or allocates
one and weak-caches it, and every later call hits the weak cache and
returns the stored userdata; moreover a cache hit allocates no new
userdata, so exactly one proxy record exists per live pointer. -/
theorem identity_uniqueness (E : TypeEnv) (obj : Ptr) (flags : List Bool)
    (s : LState) (h0 : obj ≠ 0) :
    (callSeq E obj flags s).1
      = List.replicate flags.length (LuaArg.proxy (cachedOrNew s obj))
  ∧ (∀ r b, s.weakCache obj = some r →
      (lgi_object_2lua E s obj b).2.nextId = s.nextId) := by
  constructor
  · cases hw : s.weakCache obj with
    | some r =>
      have hc : cachedOrNew s obj = r := by simp [cachedOrNew, hw]
      rw [hc]
      exact (callSeq_hit E obj h0 flags s r hw).1
    | none =>
      have hc : cachedOrNew s obj = ⟨obj, s.nextId⟩ := by
        simp [cachedOrNew, hw]
      rw [hc]
      cases flags with
      | nil => rfl
      | cons b bs =>
        have e := two_lua_miss E s obj b h0 hw
        have e1 : (lgi_object_2lua E s obj b).1
            = LuaArg.proxy ⟨obj, s.nextId⟩ := by rw [e]
        have hw2 : (lgi_object_2lua E s obj b).2.weakCache obj
            = some ⟨obj, s.nextId⟩ := by
          rw [e]
          show (lgi_object_2lua_miss E (insertWeak s obj) obj b).weakCache obj
              = _
          rw [miss_weakCache]
          show update s.weakCache obj (some ⟨obj, s.nextId⟩) obj = _
          rw [update_self]
        obtain ⟨ih1, _⟩ := callSeq_hit E obj h0 bs
          (lgi_object_2lua E s obj b).2 ⟨obj, s.nextId⟩ hw2
        show (lgi_object_2lua E s obj b).1
            :: (callSeq E obj bs (lgi_object_2lua E s obj b).2).1
            = List.replicate (b :: bs).length
                (LuaArg.proxy (⟨obj, s.nextId⟩ : ProxyRecord))
        rw [List.length_cons, List.replicate_succ, ih1, e1]
  · intro r b hr
    rw [two_lua_hit E s obj b r h0 hr]
    cases b
    · rfl
    · show (objectUnref E s obj false).nextId = s.nextId
      exact objectUnref_nextId E s obj false

theorem identity_uniqueness_witness :
    (callSeq EW 7 [false, true] s0).1
      = List.replicate 2 (LuaArg.proxy (cachedOrNew s0 7))
  ∧ (∀ r b, s0.weakCache 7 = some r →
      (lgi_object_2lua EW s0 7 b).2.nextId = s0.nextId) :=
  identity_uniqueness EW 7 [false, true] s0 (by decide)

/-- C3: the central cache invariant, that a handle has a strong-cache
entry only when that very record is its weak-cache entry, is preserved by
object_toggle_notify in both directions, by lgi_object_2lua with any
ownership flag, by object_unref and by object_refsink; promotion never
installs a record other than the weak entry. -/
theorem cache_invariant_preserved (E : TypeEnv) (s : LState)
    (h : cacheInv s) :
    (∀ obj b, cacheInv (objectToggleNotify s obj b))
  ∧ (∀ obj own, cacheInv (lgi_object_2lua E s obj own).2)
  ∧ (∀ obj rp, cacheInv (objectUnref E s obj rp))
  ∧ (∀ obj, cacheInv (objectRefsink E s obj).2) := by
  refine ⟨?_, ?_, ?_, ?_⟩
  · intro obj b p r hpr
    rw [toggleNotify_weakCache]
    cases b
    · have hst : (objectToggleNotify s obj false).strongCache
          = update s.strongCache obj (s.weakCache obj) := by
        simp [objectToggleNotify]
      rw [hst] at hpr
      by_cases hp : p = obj
      · subst hp
        rw [update_self] at hpr
        exact hpr
      · rw [update_other _ _ _ _ hp] at hpr
        exact h p r hpr
    · have hst : (objectToggleNotify s obj true).strongCache
          = update s.strongCache obj none := by
        simp [objectToggleNotify]
      rw [hst] at hpr
      by_cases hp : p = obj
      · subst hp
        rw [update_self] at hpr
        exact absurd hpr (by simp)
      · rw [update_other _ _ _ _ hp] at hpr
        exact h p r hpr
  · intro obj own
    by_cases h0 : obj = 0
    · subst h0
      rw [two_lua_nil]
      exact h
    · cases hw : s.weakCache obj with
      | some r =>
        rw [two_lua_hit E s obj own r h0 hw]
        cases own
        · exact h
        · show cacheInv (objectUnref E s obj false)
          intro p r2 hpr
          rw [objectUnref_weakCache]
          rw [objectUnref_strongCache] at hpr
          exact h p r2 hpr
      | none =>
        rw [two_lua_miss E s obj own h0 hw]
        exact miss_cacheInv E (insertWeak s obj) obj own
          (insertWeak_cacheInv s obj h hw)
  · intro obj rp p r hpr
    rw [objectUnref_weakCache]
    rw [objectUnref_strongCache] at hpr
    exact h p r hpr
  · intro obj p r hpr
    rw [objectRefsink_weakCache]
    rw [objectRefsink_strongCache] at hpr
    exact h p r hpr

theorem cache_invariant_preserved_witness :
    (∀ obj b, cacheInv (objectToggleNotify s0 obj b))
  ∧ (∀ obj own, cacheInv (lgi_object_2lua EW s0 obj own).2)
  ∧ (∀ obj rp, cacheInv (objectUnref EW s0 obj rp))
  ∧ (∀ obj, cacheInv (objectRefsink EW s0 obj).2) :=
  cache_invariant_preserved EW s0 (fun _ _ hpr => Option.noConfusion hpr)

/-- C6: on a cache hit with assume_owned, lgi_object_2lua releases exactly
one external reference (a single object_unref) before returning the cached
record; hence for a GObject-kind pointer a single owned call from a miss
is refcount-neutral (the transferred reference ends up held by the toggle
reference) and a second owned call leaves the refcount exactly one lower,
i.e. equal to one call followed by consuming one external reference. -/
theorem ownership_idempotence (E : TypeEnv) (s : LState) (obj : Ptr)
    (h0 : obj ≠ 0) :
    (∀ r, s.weakCache obj = some r →
       lgi_object_2lua E s obj true
         = (LuaArg.proxy r, objectUnref E s obj false))
  ∧ (s.weakCache obj = none → E.isObject (E.instType obj) = true →
     0 < s.refcount obj →
       (lgi_object_2lua E s obj true).2.refcount obj = s.refcount obj
       ∧ (lgi_object_2lua E (lgi_object_2lua E s obj true).2 obj
            true).2.refcount obj + 1
           = (lgi_object_2lua E s obj true).2.refcount obj) := by
  constructor
  · intro r hr
    have e := two_lua_hit E s obj true r h0 hr
    simpa using e
  · intro hm hobj hpos
    have e1 := two_lua_miss E s obj true h0 hm
    have e2 := miss_own_object_state E (insertWeak s obj) obj hobj
    have hrc : (lgi_object_2lua E s obj true).2.refcount obj
        = s.refcount obj := by
      rw [e1]
      show (lgi_object_2lua_miss E (insertWeak s obj) obj true).refcount obj
          = _
      rw [e2]
      simp [decRef, objectToggleNotify, addToggleRef, insertWeak,
        update_self]
    have hw5 : (lgi_object_2lua E s obj true).2.weakCache obj
        = some ⟨obj, s.nextId⟩ := by
      rw [e1]
      show (lgi_object_2lua_miss E (insertWeak s obj) obj true).weakCache obj
          = _
      rw [miss_weakCache]
      show update s.weakCache obj (some ⟨obj, s.nextId⟩) obj = _
      rw [update_self]
    refine ⟨hrc, ?_⟩
    have e3 := two_lua_hit E (lgi_object_2lua E s obj true).2 obj true
      ⟨obj, s.nextId⟩ h0 hw5
    rw [e3]
    show (objectUnref E (lgi_object_2lua E s obj true).2 obj
        false).refcount obj + 1 = _
    rw [objectUnref_object_plain E _ obj hobj]
    have hd : (decRef (lgi_object_2lua E s obj true).2 obj).refcount obj
        = (lgi_object_2lua E s obj true).2.refcount obj - 1 := by
      simp [decRef, update_self]
    rw [hd, hrc]
    omega

theorem ownership_idempotence_witness :
    (∀ r, s0.weakCache 5 = some r →
       lgi_object_2lua EW s0 5 true
         = (LuaArg.proxy r, objectUnref EW s0 5 false))
  ∧ ((lgi_object_2lua EW s0 5 true).2.refcount 5 = s0.refcount 5
     ∧ (lgi_object_2lua EW (lgi_object_2lua EW s0 5 true).2 5
          true).2.refcount 5 + 1
         = (lgi_object_2lua EW s0 5 true).2.refcount 5) :=
  ⟨(ownership_idempotence EW s0 5 (by decide)).1,
   (ownership_idempotence EW s0 5 (by decide)).2 (by rfl) (by decide)
     (by decide)⟩

/-- C9: on a cache miss the new proxy record is stored in the weak cache
before any ownership acquisition is attempted, so even when
object_refsink fails (the warning is emitted) the proxy exists, is
weak-cached, and the next call with the same pointer returns that very
record. -/
theorem miss_caches_before_refsink (E : TypeEnv) (s : LState) (obj : Ptr)
    (h0 : obj ≠ 0) (hm : s.weakCache obj = none)
    (hno : E.isObject (E.instType obj) = false)
    (hnoref : giRefAvailable E (E.instType obj) = false)
    (hnohook : objectLoadFunction E (E.instType obj) "_refsink" = false) :
    (lgi_object_2lua E s obj false).1 = LuaArg.proxy ⟨obj, s.nextId⟩
  ∧ (lgi_object_2lua E s obj false).2.weakCache obj
      = some ⟨obj, s.nextId⟩
  ∧ (lgi_object_2lua E s obj false).2.warnings
      = s.warnings ++ ["no way to ref type " ++ E.typeName (E.instType obj)]
  ∧ (lgi_object_2lua E (lgi_object_2lua E s obj false).2 obj false).1
      = LuaArg.proxy ⟨obj, s.nextId⟩ := by
  have e1 := two_lua_miss E s obj false h0 hm
  have e2 : lgi_object_2lua_miss E (insertWeak s obj) obj false
      = warn (insertWeak s obj)
          ("no way to ref type " ++ E.typeName (E.instType obj)) := by
    simp [lgi_object_2lua_miss, hno, objectRefsink, hnoref, hnohook]
  have hw2 : (lgi_object_2lua E s obj false).2.weakCache obj
      = some ⟨obj, s.nextId⟩ := by
    rw [e1]
    show (lgi_object_2lua_miss E (insertWeak s obj) obj false).weakCache obj
        = _
    rw [miss_weakCache]
    show update s.weakCache obj (some ⟨obj, s.nextId⟩) obj = _
    rw [update_self]
  refine ⟨by rw [e1], hw2, ?_, ?_⟩
  · rw [e1]
    show (lgi_object_2lua_miss E (insertWeak s obj) obj false).warnings = _
    rw [e2]
    rfl
  · rw [two_lua_hit E (lgi_object_2lua E s obj false).2 obj false
      ⟨obj, s.nextId⟩ h0 hw2]

theorem miss_caches_before_refsink_witness :
    (lgi_object_2lua EW s0 7 false).1 = LuaArg.proxy ⟨7, 0⟩
  ∧ (lgi_object_2lua EW s0 7 false).2.weakCache 7 = some ⟨7, 0⟩
  ∧ (lgi_object_2lua EW s0 7 false).2.warnings
      = s0.warnings ++ ["no way to ref type " ++ EW.typeName (EW.instType 7)]
  ∧ (lgi_object_2lua EW (lgi_object_2lua EW s0 7 false).2 7 false).1
      = LuaArg.proxy ⟨7, 0⟩ :=
  miss_caches_before_refsink EW s0 7 (by decide) (by rfl) (by decide)
    (by decide) (by decide)

end LgiObject
